import Mathlib

/-!
Verification development for the RAG-Triage repository.

This file shallowly embeds the deterministic core of the repository:
the triage rules engine (server/lib/rules.ts), the red-flag evaluator and
fact-reconciliation layer (the handoff module), the chat-state projections
used by the handoff assembler and submission storage, and the dialogue
state machine (server/lib/chatStateMachine.ts).  JavaScript dynamic values
(string / number / boolean) are modelled by the inductive type Value, and
JavaScript objects (ChatState, fact records) by association lists of
(String, Value) pairs queried through getV.  External LLM collaborators are
modelled as explicit oracle parameters: their textual output never feeds
back into the deterministic state transitions proved about here.
-/

namespace Triage


/-! ## JavaScript string primitives, modelled on lists of characters -/

/-- Containment of a character list as a contiguous sublist, mirroring
JavaScript String.prototype.includes. -/
def subList (needle : List Char) : List Char → Bool
  | [] => needle.isEmpty
  | c :: t => needle.isPrefixOf (c :: t) || subList needle t

/-- JavaScript s.includes(pat). -/
def containsS (s pat : String) : Bool := subList pat.data s.data

/-- JavaScript s.startsWith(pat). -/
def startsWithS (s pat : String) : Bool := pat.data.isPrefixOf s.data

/-- JavaScript s.toLowerCase() (ASCII; patient inputs and the fixed keyword
tables are ASCII). -/
def lowerS (s : String) : String := ⟨s.data.map Char.toLower⟩

/-- Whitespace recognised by String.prototype.trim (ASCII subset). -/
def isWs (c : Char) : Bool := c = ' ' || c = '\t' || c = '\n' || c = '\r'

/-- JavaScript s.trim(). -/
def trimS (s : String) : String :=
  ⟨((s.data.dropWhile isWs).reverse.dropWhile isWs).reverse⟩

/-- JavaScript Array.prototype.join(sep). -/
def joinSep (sep : String) : List String → String
  | [] => ""
  | [x] => x
  | x :: y :: t => x ++ sep ++ joinSep sep (y :: t)

/-! ## Dynamic values and JavaScript objects -/

/-- A JavaScript primitive value as stored in ChatState / fact records.
The data model of the spec (section 3) fixes field values to
string / number / boolean, which is all the state machine ever writes. -/
inductive Value where
  | vStr : String → Value
  | vNum : Int → Value
  | vBool : Bool → Value
deriving DecidableEq, Repr

/-- A JavaScript object with dynamic keys (ChatState, fact records, answers
objects): an association list from key to value, where lookup takes the
first (most recent) binding.  Only key membership and lookup are observable
in the embedded code, never key order, so shadowing older bindings is
lookup-equivalent to in-place property assignment. -/
abbrev VMap : Type := List (String × Value)

/-- Property lookup obj[k] (none models undefined). -/
def getV : VMap → String → Option Value
  | [], _ => none
  | p :: t, k => if p.1 = k then some p.2 else getV t k

/-- Property assignment obj[k] = v (the new binding shadows any older
binding for k). -/
def setV (m : VMap) (k : String) (v : Value) : VMap := (k, v) :: m

/-- Spread-merge of two objects, second overriding the first, as in the
object literal with spread of a followed by spread of b: lookup prefers b
and falls back to a. -/
def mergeV (a b : VMap) : VMap := b ++ a

/-- JavaScript truthiness of a possibly-missing Value ("" and 0 and false
and undefined are falsy). -/
def truthy : Option Value → Bool
  | some (.vStr s) => s ≠ ""
  | some (.vNum n) => n ≠ 0
  | some (.vBool b) => b
  | none => false

/-- Reads a field expected to be a string, with default d; models the
idiom (x || d) on a string-typed field.  A present empty string is falsy
and yields d in the source as well, so both agree; a non-string value here
would throw later in the source (toLowerCase) and is mapped to d. -/
def strOrD (v : Option Value) (d : String) : String :=
  match v with
  | some (.vStr s) => if s = "" then d else s
  | _ => d

/-- Reads a field expected to be a number, with default d; models (x || d)
on a number-typed field (0 is falsy, and the defaults used are 0, so the
result agrees with the source on numbers). -/
def numOrD (v : Option Value) (d : Int) : Int :=
  match v with
  | some (.vNum n) => n
  | _ => d

/-- Reads a number with nullish default, modelling (x ?? d) followed by a
numeric comparison: a present number is used even when 0. -/
def numNullish (v : Option Value) (d : Int) : Int :=
  match v with
  | some (.vNum n) => n
  | _ => d

/-! ## Rules engine (server/lib/rules.ts, evaluateTriage) -/

/-- Three-tier risk band of the rules engine. -/
inductive RiskBand where
  | Red
  | Amber
  | Green
deriving DecidableEq, Repr

/-- Band name as interpolated into the summary string. -/
def bandStr : RiskBand → String
  | .Red => "Red"
  | .Amber => "Amber"
  | .Green => "Green"

/-- The answers object consumed by evaluateTriage, restricted to the fields
the function reads: complaint, age, sex, severity, and boolean red-flag
style fields accessed by truthiness (modelled by the valuation flag). -/
structure Answers where
  complaint : String
  age : Int
  sex : String
  severity : Int
  flag : String → Bool

/-- Result record of evaluateTriage. -/
structure TriageResult where
  riskBand : RiskBand
  redFlags : List String
  summary : String
deriving DecidableEq, Repr

/-- Red-flag accumulation of evaluateTriage (server/lib/rules.ts): the
global flags followed by the complaint-specific flags, in the order the
source pushes them. -/
def triageFlags (a : Answers) : List String :=
  let complaint := lowerS a.complaint
  (if a.flag "confusion" then ["New confusion"] else []) ++
    (if a.flag "severeBleeding" then ["Severe bleeding"] else []) ++
    (if a.severity ≥ 9 then ["Pain severity 9-10/10"] else []) ++
    (if complaint = "chest pain" then
      (if a.flag "shortnessOfBreath" then ["Chest pain + SOB"] else []) ++
      (if a.flag "radiatingPain" then ["Radiating pain"] else []) ++
      (if a.age > 50 ∧ a.severity > 5 then ["Age > 50 with moderate chest pain"] else []) ++
      (if a.flag "cardiacHistory" then ["History of heart disease"] else [])
    else []) ++
    (if complaint = "shortness of breath" then
      (if a.flag "cyanosis" then ["Cyanosis (blue lips/skin)"] else []) ++
      (if a.flag "speakingDifficulty" then ["Unable to speak full sentences"] else [])
    else []) ++
    (if complaint = "abdominal pain" then
      (if a.flag "vomitingBlood" then ["Vomiting blood"] else []) ++
      (if a.flag "rigidAbdomen" then ["Rigid abdomen"] else []) ++
      (if a.flag "pregnancy" ∧ a.flag "bleeding" then ["Pregnancy + bleeding"] else [])
    else []) ++
    (if complaint = "headache" then
      (if a.flag "thunderclap" then ["Sudden \x27thunderclap\x27 onset"] else []) ++
      (if a.flag "neckStiffness" then ["Neck stiffness"] else []) ++
      (if a.flag "visualDisturbance" then ["Visual disturbance"] else [])
    else [])

/-- The triage rules engine evaluateTriage of server/lib/rules.ts: flag
collection, band decision, deterministic summary string. -/
def evaluateTriage (a : Answers) : TriageResult :=
  let flags := triageFlags a
  let band : RiskBand :=
    if flags.length > 0 then .Red
    else if a.severity ≥ 6 ∨ a.age > 75 then .Amber
    else .Green
  let summary :=
    toString a.age ++ "y " ++ a.sex ++ " presenting with " ++ lowerS a.complaint ++
    " (Severity " ++ toString a.severity ++ "/10). Risk: " ++ bandStr band ++
    ". Flags: " ++ (if flags.length > 0 then joinSep ", " flags else "None") ++ "."
  ⟨band, flags, summary⟩

/-! ## Conversation messages -/

/-- Message author role. -/
inductive Role where
  | user
  | assistant
deriving DecidableEq, Repr

instance : BEq Role := ⟨fun a b => decide (a = b)⟩

/-- One conversation message. -/
structure ChatMessage where
  role : Role
  content : String
deriving DecidableEq, Repr

/-- Concatenation of all patient-authored message text, as built at the top
of extractFactsFromMessages (filter role user, map content, join with a
newline). -/
def patientTextOf (messages : List ChatMessage) : String :=
  joinSep "\n" ((messages.filter (fun m => m.role == Role.user)).map (fun m => m.content))

/-! ## Fact reconciliation (handoff module, extractFactsFromMessages) -/

/-- Confidence threshold for critical facts (CONFIDENCE_CRITICAL). -/
def CONFIDENCE_CRITICAL : Int := 70

/-- Confidence threshold for non-critical facts (CONFIDENCE_DEFAULT). -/
def CONFIDENCE_DEFAULT : Int := 50

/-- The fixed critical-fact key set (CRITICAL_FACT_KEYS). -/
def CRITICAL_FACT_KEYS : List String :=
  ["severity_score", "chest_pain", "shortness_of_breath", "collapse", "confusion",
   "severe_bleeding", "fainting", "face_droop", "arm_weakness", "speech_difficulty",
   "thunderclap", "neck_stiffness", "non_blanching_rash", "vomiting_blood",
   "pregnant_possible", "fever"]

/-- Threshold selection for a fact key, as computed at both gate sites. -/
def requiredThreshold (k : String) : Int :=
  if CRITICAL_FACT_KEYS.contains k then CONFIDENCE_CRITICAL else CONFIDENCE_DEFAULT

/-- Copies state[src] to m[dst] when present, modelling the guarded
assignments (state.x != null) of deterministicFactsFromState. -/
def copyIf (m state : VMap) (src dst : String) : VMap :=
  match getV state src with
  | some v => setV m dst v
  | none => m

/-- Deterministic projection of chat state to canonical snake_case fact
keys (deterministicFactsFromState of the handoff module), assignment by
assignment in source order. -/
def deterministicFactsFromState (state : VMap) : VMap :=
  let m : VMap := []
  let m := copyIf m state "age" "age_years"
  let m := copyIf m state "sex" "sex"
  let m := copyIf m state "complaint" "chief_complaint"
  let m :=
    match getV state "openingDescription" with
    | some od => if truthy (getV m "chief_complaint") then m else setV m "chief_complaint" od
    | none => m
  let m := copyIf m state "onset" "onset"
  let m := copyIf m state "duration" "duration"
  let m := copyIf m state "severity" "severity_score"
  let m := copyIf m state "location" "location"
  let m := copyIf m state "shortnessOfBreath" "shortness_of_breath"
  let m :=
    match getV state "troubleBreathing" with
    | some tb =>
      setV m "shortness_of_breath"
        (match getV m "shortness_of_breath" with
         | some v => v
         | none => tb)
    | none => m
  let m := copyIf m state "collapse" "collapse"
  let m := copyIf m state "confusion" "confusion"
  let m := copyIf m state "severeBleeding" "severe_bleeding"
  let m := copyIf m state "radiatingPain" "radiating_pain"
  let m := copyIf m state "thunderclap" "thunderclap"
  let m := copyIf m state "neckStiffness" "neck_stiffness"
  let m := copyIf m state "nonBlanchingRash" "non_blanching_rash"
  let m := copyIf m state "vomitingBlood" "vomiting_blood"
  let m := copyIf m state "pregnancy" "pregnant_possible"
  let m := copyIf m state "fever" "fever"
  m

/-- JavaScript word character as used by the regex classes in
foundInConversation. -/
def isWordChar (c : Char) : Bool := c.isAlpha || c.isDigit || c = '_'

/-- Tail of the slash-ten alternative of the corroboration regex: optional
whitespace, a slash, optional whitespace, then the literal 10. -/
def slashTail (l : List Char) : Bool :=
  match l.dropWhile isWs with
  | '/' :: l2 => "10".data.isPrefixOf (l2.dropWhile isWs)
  | _ => false

/-- Does a match of the first regex alternative (one or two digits,
optional whitespace, slash, optional whitespace, 10) start here. -/
def slashTenAt : List Char → Bool
  | [] => false
  | c :: rest =>
    c.isDigit &&
      (slashTail rest ||
        (match rest with
         | d :: rest2 => d.isDigit && slashTail rest2
         | [] => false))

/-- Does a match of the second regex alternative (a word-boundary-delimited
run of one or two digits) start here, given the previous character. -/
def boundedDigitsAt (prev : Option Char) : List Char → Bool
  | [] => false
  | c :: rest =>
    (match prev with
     | none => true
     | some p => !isWordChar p) &&
    c.isDigit &&
      (match rest with
       | [] => true
       | d :: rest2 =>
         if isWordChar d then
           d.isDigit &&
             (match rest2 with
              | [] => true
              | e :: _ => !isWordChar e)
         else true)

/-- Scan for the loose numeric corroboration regex of foundInConversation:
either alternative matching at any position. -/
def looseNumScan (prev : Option Char) : List Char → Bool
  | [] => false
  | c :: rest =>
    slashTenAt (c :: rest) || boundedDigitsAt prev (c :: rest) ||
      looseNumScan (some c) rest

/-- Is a value a boolean (typeof value === boolean). -/
def isBoolValue : Value → Bool
  | .vBool _ => true
  | _ => false

/-- Textual corroboration check foundInConversation of the handoff module:
booleans always pass; numbers pass on literal containment or, when at most
10, on the loose one-or-two-digit regex; strings pass on lowercased trimmed
containment. -/
def foundInConversation (conversationText : String) (value : Value) : Bool :=
  let text := lowerS conversationText
  match value with
  | .vBool _ => true
  | .vNum n => containsS text (toString n) || (n ≤ 10 && looseNumScan none text.data)
  | .vStr s => containsS text (trimS (lowerS s))

/-- One extracted fact or negation entry of the LLM JSON payload. -/
structure FactEntry where
  key : String
  value : Value
  confidence : Int
deriving DecidableEq, Repr

/-- Parsed LLM extraction payload (facts plus negations; a missing array in
the JSON behaves as an empty list). -/
structure LlmExtraction where
  facts : List FactEntry
  negations : List FactEntry
deriving DecidableEq, Repr

/-- One divergence event as passed to the onDivergence side channel (the
session id argument is constant per call and omitted). -/
structure DivergenceEvent where
  key : String
  llmValue : Value
  stateValue : Value
deriving DecidableEq, Repr

/-- The admission gate of the facts loop: passes when confidence reaches the
per-key threshold and, for critical non-boolean values, when the
conversation corroborates the value.  This is the exact complement of the
two continue statements of the loop. -/
def factAdmitted (patientText : String) (f : FactEntry) : Bool :=
  requiredThreshold f.key ≤ f.confidence &&
    !(CRITICAL_FACT_KEYS.contains f.key && !isBoolValue f.value &&
      !foundInConversation patientText f.value)

/-- One iteration of the facts loop of extractFactsFromMessages, threading
the fact record and the emitted divergence events. -/
def factStep (patientText : String) (det : VMap)
    (acc : VMap × List DivergenceEvent) (f : FactEntry) :
    VMap × List DivergenceEvent :=
  if f.confidence < requiredThreshold f.key then acc
  else if CRITICAL_FACT_KEYS.contains f.key && !isBoolValue f.value &&
      !foundInConversation patientText f.value then acc
  else
    let divs :=
      match getV det f.key with
      | some dv => if dv ≠ f.value then acc.2 ++ [⟨f.key, f.value, dv⟩] else acc.2
      | none => acc.2
    (setV acc.1 f.key f.value, divs)

/-- One iteration of the negations loop of extractFactsFromMessages. -/
def negationStep (acc : VMap) (g : FactEntry) : VMap :=
  if g.confidence < requiredThreshold g.key then acc
  else setV acc g.key (.vBool false)

/-- Fact reconciliation extractFactsFromMessages of the handoff module.
The external structured-extraction call is modelled by the llm parameter:
none is the catch branch (call failure or malformed JSON), some r the
parsed payload.  Returns the fact record together with the ordered list of
divergence events delivered to the onDivergence side channel. -/
def extractFactsFromMessages (messages : List ChatMessage) (existingFacts : VMap)
    (llm : Option LlmExtraction) : VMap × List DivergenceEvent :=
  let patientMessages := patientTextOf messages
  let deterministic := deterministicFactsFromState existingFacts
  let facts := mergeV existingFacts deterministic
  if trimS patientMessages = "" then (facts, [])
  else
    match llm with
    | none => (facts, [])
    | some r =>
      let afterFacts := r.facts.foldl (factStep patientMessages deterministic) (facts, [])
      let final := r.negations.foldl negationStep afterFacts.1
      (final, afterFacts.2)

/-! ## Red-flag evaluator (handoff module, evaluateRedFlags) -/

/-- Criterion operator of a declarative red-flag rule. -/
inductive CritOp where
  | eq
  | gte
  | lte
deriving DecidableEq, Repr

/-- One criterion of a red-flag rule. -/
structure Criterion where
  fact : String
  op : CritOp
  value : Value
deriving DecidableEq, Repr

/-- One declarative red-flag rule of the static table (redFlagRules.json),
with optional criteria_all and criteria_any lists. -/
structure RedFlagRule where
  code : String
  label : String
  evidencePrompt : String
  criteriaAll : Option (List Criterion)
  criteriaAny : Option (List Criterion)
deriving DecidableEq, Repr

/-- Evaluation of one criterion against the fact record.  Strict equality
on primitives for eq; gte and lte require a numeric fact value (the source
guards typeof factValue === number, so a missing or non-numeric fact value
yields false, never an error); the rule literals compared by gte and lte
are numeric in the shipped table. -/
def evalCriterion (facts : VMap) (c : Criterion) : Bool :=
  let factValue := getV facts c.fact
  match c.op with
  | .eq => factValue == some c.value
  | .gte =>
    match factValue, c.value with
    | some (.vNum n), .vNum m => n ≥ m
    | _, _ => false
  | .lte =>
    match factValue, c.value with
    | some (.vNum n), .vNum m => n ≤ m
    | _, _ => false

/-- Match decision for one rule: criteria_all as a conjunction when
present (otherwise no match from that part), then criteria_any as a
disjunction when present and not already matched. -/
def ruleMatches (facts : VMap) (r : RedFlagRule) : Bool :=
  let m :=
    match r.criteriaAll with
    | some cs => cs.all (evalCriterion facts)
    | none => false
  match r.criteriaAny with
  | some cs => m || cs.any (evalCriterion facts)
  | none => m

/-- The fact keys referenced by a rule (requiredFacts in the source). -/
def referencedFacts (r : RedFlagRule) : List String :=
  ((r.criteriaAll.getD []) ++ (r.criteriaAny.getD [])).map (fun c => c.fact)

/-- Whether any referenced fact key exists in the record (hasFacts in the
source): an unmatched rule is notTriggered when assessable, else
notAssessed. -/
def ruleAssessable (facts : VMap) (r : RedFlagRule) : Bool :=
  (referencedFacts r).any (fun k => (getV facts k).isSome)

/-- One triggered red flag as reported by evaluateRedFlags. -/
structure RedFlagTriggered where
  code : String
  label : String
  evidence : String
deriving DecidableEq, Repr

/-- Result record of evaluateRedFlags. -/
structure RedFlagResults where
  triggered : List RedFlagTriggered
  notTriggered : List String
  notAssessed : List String
deriving DecidableEq, Repr

/-- The red-flag evaluator evaluateRedFlags of the handoff module, as a
structural recursion over the rule table that mirrors the source loop
(each rule appended to exactly one of the three lists, in table order). -/
def evaluateRedFlags (rules : List RedFlagRule) (facts : VMap) : RedFlagResults :=
  match rules with
  | [] => ⟨[], [], []⟩
  | r :: rest =>
    let acc := evaluateRedFlags rest facts
    if ruleMatches facts r then
      ⟨⟨r.code, r.label, r.evidencePrompt⟩ :: acc.triggered, acc.notTriggered, acc.notAssessed⟩
    else if ruleAssessable facts r then
      ⟨acc.triggered, r.label :: acc.notTriggered, acc.notAssessed⟩
    else
      ⟨acc.triggered, acc.notTriggered, r.label :: acc.notAssessed⟩

/-- Is an optional value a number. -/
def isNumValue : Option Value → Bool
  | some (.vNum _) => true
  | _ => false

/-- C1 counterexample input: chat state already carries severity 5
(deterministic projection severity_score 5) while the LLM extracts a
corroborated, high-confidence severity_score of 7. -/
def c1Messages : List ChatMessage := [⟨Role.user, "my pain is 7"⟩]

/-- C1 counterexample chat state. -/
def c1State : VMap := [("severity", Value.vNum 5)]

/-- C1 counterexample LLM payload. -/
def c1Llm : LlmExtraction := ⟨[⟨"severity_score", Value.vNum 7, 90⟩], []⟩

/-- C1 amended-claim witness input: a second concrete session where the
gated LLM fact overrides the deterministic severity. -/
def c1wMessages : List ChatMessage := [⟨Role.user, "the pain is 8 out of 10"⟩]

/-- C1 amended-claim witness chat state. -/
def c1wState : VMap := [("severity", Value.vNum 6)]

/-- C1 amended-claim witness LLM payload. -/
def c1wLlm : LlmExtraction := ⟨[⟨"severity_score", Value.vNum 8, 80⟩], []⟩

/-- C7 counterexample input: one patient message and a single critical-key
negation at confidence 60 (at or above the default threshold 50 but below
the critical threshold 70). -/
def c7Messages : List ChatMessage := [⟨Role.user, "i feel unwell"⟩]

/-- C7 counterexample LLM payload: a negation of fever at confidence 60. -/
def c7Llm : LlmExtraction := ⟨[], [⟨"fever", Value.vBool true, 60⟩]⟩

/-- C7 witness input: a non-critical negation at confidence 55. -/
def c7wMessages : List ChatMessage := [⟨Role.user, "no nausea at all"⟩]

/-- C7 witness LLM payload. -/
def c7wLlm : LlmExtraction := ⟨[], [⟨"nausea", Value.vBool true, 55⟩]⟩

/-! ## Chat-state projections feeding the rules engine

The submission path projects chat state through buildTriageFromChat
(chatStateMachine.ts), while generateHandoff projects it through
buildAnswersFromState (handoff module) before re-running evaluateTriage.
Both are embedded below as producers of the Answers record observed by
evaluateTriage: the four scalar fields are the defaulted reads, and every
other field is observed only by truthiness through the flag valuation. -/

/-- The keys explicitly listed in the answers object of buildTriageFromChat
(chatStateMachine.ts); every other key is absent from that object. -/
def chatAnswerKeys : List String :=
  ["complaint", "age", "sex", "severity", "onset", "location", "duration",
   "character", "aggravating", "relieving", "associated", "medicalHistory",
   "medications", "allergies", "troubleBreathing", "collapse", "severePain",
   "severeBleeding", "confusion", "shortnessOfBreath", "radiatingPain",
   "sweating", "nausea", "cardiacHistory", "cyanosis", "speakingDifficulty",
   "vomitingBlood", "bloodyStools", "worseWithMovement", "rigidAbdomen",
   "pregnancy", "feverWithPain", "thunderclap", "neckStiffness",
   "visualDisturbance", "neurologicalSymptoms", "photophobia",
   "nonBlanchingRash", "canKeepFluids", "wheezing", "coughingBlood",
   "chestPain"]

/-- Projection used by buildTriageFromChat: listed keys are passed through
from state (undefined stays undefined, hence falsy); unlisted keys are
absent, hence falsy. -/
def buildTriageAnswers (state : VMap) : Answers where
  complaint := strOrD (getV state "complaint") ""
  age := numOrD (getV state "age") 0
  sex := strOrD (getV state "sex") ""
  severity := numOrD (getV state "severity") 0
  flag := fun k => if chatAnswerKeys.contains k then truthy (getV state k) else false

/-- Projection buildAnswersFromState of the handoff module: listed defaults
followed by a spread of the whole state, so any key present in state
overrides its default and absent keys keep the listed default.  All listed
defaults are falsy except shortnessOfBreath, which defaults to
troubleBreathing (or false); keys without a listed default are present in
the answers object exactly when present in state. -/
def buildAnswersFromState (state : VMap) : Answers where
  complaint := strOrD (getV state "complaint") ""
  age := numOrD (getV state "age") 0
  sex := strOrD (getV state "sex") ""
  severity := numOrD (getV state "severity") 0
  flag := fun k =>
    if k = "shortnessOfBreath" then
      match getV state "shortnessOfBreath" with
      | some v => truthy (some v)
      | none => truthy (getV state "troubleBreathing")
    else truthy (getV state k)

/-- Triage of a completed chat session, buildTriageFromChat of
chatStateMachine.ts (the Green-band recommendation attachment does not
alter the triage fields and is omitted here). -/
def buildTriageFromChat (state : VMap) : TriageResult :=
  evaluateTriage (buildTriageAnswers state)

/-- Risk band stored with the submission by the chat-message route:
escalated sessions are always stored Red, otherwise the band computed by
buildTriageFromChat. -/
def storedRiskBand (isEscalation : Bool) (state : VMap) : RiskBand :=
  if isEscalation then .Red else (buildTriageFromChat state).riskBand

/-- The rules_engine_category of the handoff returned by generateHandoff:
on success the LLM draft is overwritten with the band of evaluateTriage
over buildAnswersFromState, and the minimal handoff on generator failure
uses the same band, so the field always equals this value (the source
upper-cases the band name, an injective renaming Red to RED and so on,
compared here at the band level). -/
def handoffRulesEngineCategory (state : VMap) : RiskBand :=
  (evaluateTriage (buildAnswersFromState state)).riskBand

/-- The fact keys whose truthiness evaluateTriage inspects. -/
def triageFlagKeys : List String :=
  ["confusion", "severeBleeding", "shortnessOfBreath", "radiatingPain",
   "cardiacHistory", "cyanosis", "speakingDifficulty", "vomitingBlood",
   "rigidAbdomen", "pregnancy", "bleeding", "thunderclap", "neckStiffness",
   "visualDisturbance"]

/-- C2 witness state: a chest-pain presentation with severity 7 at age 60,
no bleeding field and no troubleBreathing discrepancy. -/
def c2wState : VMap :=
  [("complaint", Value.vStr "chest pain"), ("severity", Value.vNum 7),
   ("age", Value.vNum 60), ("shortnessOfBreath", Value.vBool false)]

/-! ## Dialogue state machine (server/lib/chatStateMachine.ts)

The two asynchronous collaborator calls (generatePatientResponse and the
route-level RAG handlers) only produce response text; they never alter the
deterministic state transition.  generatePatientResponse is modelled by
the oracle parameter gen; each call site keeps the source fallback when
the generated text is empty. -/

/-- Conversational stage of the interview. -/
inductive Stage where
  | opening
  | localisation
  | time_start
  | time_trend
  | severity
  | danger_breathing
  | danger_collapse
  | danger_severe_pain
  | danger_bleeding
  | danger_confusion
  | red_flags
  | rag_followup
  | context_conditions
  | context_medications
  | context_surgery
  | functional_eat
  | functional_move
  | functional_activities
  | collect_name
  | summary
  | complete
  | escalated
deriving DecidableEq, Repr

/-- Oracle modelling the text returned by generatePatientResponse for a
given input, history, updated state and updated stage. -/
def GenFn : Type := String → List ChatMessage → VMap → Stage → String

/-- The constant-empty oracle (every call site then uses its deterministic
fallback text, as on collaborator failure). -/
def gen0 : GenFn := fun _ _ _ _ => ""

/-- The left-to-right or of the source response assignments: the generated
text unless empty, else the deterministic fallback. -/
def respOf (gen : GenFn) (input : String) (hist : List ChatMessage)
    (st : VMap) (sg : Stage) (fallback : String) : String :=
  let g := gen input hist st sg
  if g = "" then fallback else g

/-- Complaint vocabulary (COMPLAINTS). -/
def COMPLAINTS : List String :=
  ["chest pain", "shortness of breath", "abdominal pain", "headache", "fever"]

/-- Yes lexicon of parseYesNo. -/
def yesWords : List String :=
  ["yes", "y", "yeah", "yep", "true", "correct", "yea", "sure", "ok", "okay",
   "definitely", "absolutely", "i can", "i am", "i do"]

/-- No lexicon of parseYesNo. -/
def noWords : List String :=
  ["no", "n", "nope", "nah", "false", "negative", "none", "not", "can\x27t",
   "cannot", "don\x27t", "i can\x27t", "i cannot", "i don\x27t"]

/-- One lexicon hit of parseYesNo: exact match, the word at the start
followed by a space, or the word after a space anywhere. -/
def wordHit (lower w : String) : Bool :=
  lower = w || startsWithS lower (w ++ " ") || containsS lower (" " ++ w)

/-- Yes/no parser parseYesNo (none models null). -/
def parseYesNo (input : String) : Option Bool :=
  let lower := lowerS (trimS input)
  if yesWords.any (wordHit lower) then some true
  else if noWords.any (wordHit lower) then some false
  else none

/-- Decimal value of a digit run. -/
def digitsVal (l : List Char) : Nat :=
  l.foldl (fun n c => 10 * n + (c.toNat - 48)) 0

/-- First maximal run of decimal digits of the input, as matched by the
digit-run regex of parseNumber. -/
def firstDigitRun : List Char → Option (List Char)
  | [] => none
  | c :: t =>
    if c.isDigit then some (c :: t.takeWhile Char.isDigit) else firstDigitRun t

/-- Integer parser parseNumber: parseInt of the first digit run (the run
regex has no sign, so the value is never negative). -/
def parseNumber (input : String) : Option Int :=
  (firstDigitRun input.data).map (fun l => (digitsVal l : Int))

/-- Complaint parser parseComplaint: vocabulary containment first, then the
extended keyword heuristics, in source order. -/
def parseComplaint (input : String) : Option String :=
  let lower := lowerS input
  match COMPLAINTS.find? (fun c => containsS lower c) with
  | some c => some c
  | none =>
    if containsS lower "chest" || containsS lower "heart" then some "chest pain"
    else if containsS lower "breath" || containsS lower "breathing" ||
        containsS lower "breathless" || containsS lower "can\x27t breathe" then
      some "shortness of breath"
    else if containsS lower "stomach" || containsS lower "abdomen" ||
        containsS lower "belly" || containsS lower "tummy" || containsS lower "gut" then
      some "abdominal pain"
    else if containsS lower "head" || containsS lower "migraine" then some "headache"
    else if containsS lower "fever" || containsS lower "temperature" ||
        containsS lower "hot" || containsS lower "chills" || containsS lower "shiver" then
      some "fever"
    else none

/-- The fixed emergency keyword list of checkEmergencySigns, entry by
entry (note that stiff neck and fever are separate entries). -/
def emergencyKeywords : List String :=
  ["severe chest pain", "severe breathing", "can\x27t breathe", "blue lips",
   "collapsed", "fainted", "fainting", "confusion", "confused", "seizure",
   "worst headache", "stiff neck", "fever", "purple rash", "heavy bleeding",
   "bleeding heavily", "unconscious", "not responding"]

/-- Emergency scan checkEmergencySigns: any keyword contained in the
lowercased raw input. -/
def checkEmergencySigns (input : String) : Bool :=
  let lower := lowerS input
  emergencyKeywords.any (fun kw => containsS lower kw)

/-- The three-tier fallback prompts (FALLBACK_PROMPTS), keyed by category:
first, second, final. -/
def fallbackPromptsFor : String → Option (String × String × String)
  | "opening" => some
      ("I understand. Could you describe your main symptom in a bit more detail?",
       "What is the single thing that\x27s bothering you most right now?",
       "Please tell me: are you experiencing chest pain, breathing problems, stomach pain, headache, or fever?")
  | "localisation" => some
      ("Which part of your body is bothering you the most right now?",
       "Can you point to where the problem is? Upper body, lower body, head, chest, or stomach?",
       "Please tell me the area: head, chest, stomach, back, arms, or legs?")
  | "time_start" => some
      ("Can you estimate: was it today, yesterday, or longer ago?",
       "Did this start hours ago, days ago, or weeks ago?",
       "Roughly how long have you had this problem?")
  | "time_trend" => some
      ("Would you say it\x27s better, worse, or about the same as when it started?",
       "Is the problem getting worse, getting better, or staying the same?",
       "Please tell me: worse, better, or the same?")
  | "severity" => some
      ("If 0 is no problem and 10 is the worst possible, what number would you give it?",
       "Is it mild (1-3), moderate (4-6), or severe (7-10)?",
       "Just give me a number from 0 to 10 for how bad it is.")
  | "danger" => some
      ("Just to confirm, is that a yes or a no?",
       "I need a clear answer for safety. Yes or no?",
       "Please answer yes or no.")
  | "red_flags" => some
      ("Is that a yes or no?",
       "I need to know for safety. Yes or no?",
       "Please answer with yes or no.")
  | "context" => some
      ("Could you tell me a bit more about that?",
       "Any details you can share would help.",
       "You can say \x27none\x27 if nothing applies.")
  | "functional" => some
      ("Are you able to do that? Yes or no.",
       "Can you manage that normally? Yes or no.",
       "Please answer yes or no.")
  | _ => none

/-- Fallback prompt selection getFallbackPrompt: category from a stage-name
prefix, escalating by retry count 0 / 1 / 2 and beyond. -/
def getFallbackPrompt (stage : String) (retryCount : Nat) : String :=
  let category :=
    if startsWithS stage "danger_" then "danger"
    else if startsWithS stage "context_" then "context"
    else if startsWithS stage "functional_" then "functional"
    else stage
  match fallbackPromptsFor category with
  | none => "I didn\x27t quite catch that. Could you try again?"
  | some (first, second, final) =>
    if retryCount = 0 then first
    else if retryCount = 1 then second
    else final

/-- One complaint-specific red-flag question (question text and the state
field it fills). -/
structure RFQuestion where
  question : String
  field : String
deriving DecidableEq, Repr

/-- Condition-specific red-flag questions (RED_FLAG_QUESTIONS), keyed by
complaint; unrecognized complaints have no questions. -/
def RED_FLAG_QUESTIONS : String → List RFQuestion
  | "chest pain" =>
    [⟨"Is the pain spreading to your arm, jaw, neck, or back?", "radiatingPain"⟩,
     ⟨"Are you sweating or feeling clammy?", "sweating"⟩,
     ⟨"Do you have any nausea or vomiting?", "nausea"⟩]
  | "shortness of breath" =>
    [⟨"Are you wheezing or making unusual sounds when breathing?", "wheezing"⟩,
     ⟨"Have you coughed up any blood?", "coughingBlood"⟩,
     ⟨"Do you have any chest pain or tightness?", "chestPain"⟩]
  | "abdominal pain" =>
    [⟨"Are you vomiting blood or something that looks like coffee grounds?", "vomitingBlood"⟩,
     ⟨"Have you noticed any blood in your stool or urine?", "bloodyStools"⟩,
     ⟨"Is the pain worse when you move or press on the area?", "worseWithMovement"⟩,
     ⟨"Do you have a fever or feel shivery?", "feverWithPain"⟩,
     ⟨"Are you pregnant or could you be pregnant?", "pregnancy"⟩]
  | "headache" =>
    [⟨"Did this headache come on suddenly like a thunderclap?", "thunderclap"⟩,
     ⟨"Do you have a stiff neck or does it hurt to bend your head forward?", "neckStiffness"⟩,
     ⟨"Are you experiencing any vision problems or seeing double?", "visualDisturbance"⟩,
     ⟨"Do you have any weakness, numbness, or difficulty speaking?", "neurologicalSymptoms"⟩,
     ⟨"Are you sensitive to light?", "photophobia"⟩]
  | "fever" =>
    [⟨"Do you have a rash that doesn\x27t fade when you press a glass against it?", "nonBlanchingRash"⟩,
     ⟨"Do you have a stiff neck?", "neckStiffness"⟩,
     ⟨"Are you able to keep fluids down?", "canKeepFluids"⟩]
  | _ => []

/-- Optional-chain lowercase with empty default, modelling the idiom
(state.complaint?.toLowerCase() || "") on a string-typed field. -/
def jsLowerOpt (v : Option Value) : String :=
  match v with
  | some (.vStr s) => lowerS s
  | _ => ""

/-- Display of a value inside a template literal. -/
def dispV : Value → String
  | .vStr s => s
  | .vNum n => toString n
  | .vBool b => cond b "true" "false"

/-- Template interpolation of (x || d) for a possibly-missing field. -/
def dispOr (v : Option Value) (d : String) : String :=
  match v with
  | some w => if truthy (some w) then dispV w else d
  | none => d

/-- Summary confirmation text generateSummaryConfirmation, line by line. -/
def generateSummaryConfirmation (state : VMap) : String :=
  let base :=
    "Thank you " ++ dispOr (getV state "patientName") "for that information" ++
    ". Let me confirm what you\x27ve told me:\n\n" ++
    "- Name: " ++ dispOr (getV state "patientName") "Not provided" ++ "\n" ++
    "- Main concern: " ++ dispOr (getV state "complaint") "Not specified" ++ "\n" ++
    "- Location: " ++ dispOr (getV state "location") "Not specified" ++ "\n" ++
    "- Started: " ++ dispOr (getV state "onset") "Not specified" ++ "\n" ++
    "- Trend: " ++ dispOr (getV state "timeTrend") "Not specified" ++ "\n" ++
    "- Severity: " ++
      (match getV state "severity" with
       | some v => dispV v ++ "/10"
       | none => "Not rated") ++ "\n"
  let base :=
    if truthy (getV state "medicalHistory") &&
        !(getV state "medicalHistory" == some (.vStr "None reported")) then
      base ++ "- Medical conditions: " ++ dispOr (getV state "medicalHistory") "" ++ "\n"
    else base
  let base :=
    if truthy (getV state "medications") &&
        !(getV state "medications" == some (.vStr "None")) then
      base ++ "- Medications: " ++ dispOr (getV state "medications") "" ++ "\n"
    else base
  base ++ "\nIs this correct? (Yes/No)"

/-- Question and next stage returned by getNextQuestion. -/
structure NextQ where
  question : String
  nextStage : Stage
deriving DecidableEq, Repr

/-- Deterministic question table getNextQuestion. -/
def getNextQuestion (state : VMap) (stage : Stage) : NextQ :=
  match stage with
  | .opening =>
    ⟨"Can you tell me what\x27s happening right now and what made you seek help today?", .localisation⟩
  | .localisation => ⟨"Where in your body is the main problem?", .time_start⟩
  | .time_start => ⟨"When did this start?", .time_trend⟩
  | .time_trend => ⟨"Is it getting better, worse, or staying the same?", .severity⟩
  | .severity => ⟨"On a scale from 0 to 10, how severe is it right now?", .danger_breathing⟩
  | .danger_breathing => ⟨"Are you having trouble breathing right now?", .danger_collapse⟩
  | .danger_collapse =>
    ⟨"Have you collapsed, fainted, or felt close to passing out?", .danger_severe_pain⟩
  | .danger_severe_pain => ⟨"Is the pain severe or unbearable?", .danger_bleeding⟩
  | .danger_bleeding => ⟨"Are you bleeding heavily right now?", .danger_confusion⟩
  | .danger_confusion => ⟨"Are you confused, drowsy, or hard to wake?", .red_flags⟩
  | .red_flags =>
    let complaint := jsLowerOpt (getV state "complaint")
    let questions := RED_FLAG_QUESTIONS complaint
    match questions.find? (fun q => (getV state q.field).isNone) with
    | some q => ⟨q.question, .red_flags⟩
    | none => ⟨"", .rag_followup⟩
  | .rag_followup => ⟨"", .context_conditions⟩
  | .context_conditions =>
    ⟨"Do you have any long-term medical conditions?", .context_medications⟩
  | .context_medications => ⟨"Are you taking any regular medications?", .context_surgery⟩
  | .context_surgery => ⟨"Have you had any surgery in this area before?", .functional_eat⟩
  | .functional_eat => ⟨"Are you able to eat or drink?", .functional_move⟩
  | .functional_move => ⟨"Can you move around normally?", .functional_activities⟩
  | .functional_activities =>
    ⟨"Is this stopping you from doing normal daily activities?", .collect_name⟩
  | .collect_name =>
    ⟨"Thank you for that information. Before I complete your assessment, can I take your full name please?", .summary⟩
  | .summary => ⟨generateSummaryConfirmation state, .complete⟩
  | _ => ⟨"Thank you for completing the assessment.", .complete⟩

/-- Fixed emergency escalation message (EMERGENCY_RESPONSE; the inline
literal of the emergency short-circuit is the same text). -/
def EMERGENCY_RESPONSE : String :=
  "Based on what you\x27ve told me, this could be urgent. You need emergency medical help now. Please call 999 or go to A&E immediately."

/-- Safety-net suffix (SAFETY_NET). -/
def SAFETY_NET : String :=
  "\n\nIf your symptoms suddenly get worse, or you develop new symptoms like severe pain, breathlessness, collapse, or bleeding, seek urgent medical help immediately."

/-- Final outward message generateFinalResponse, keyed by the computed
band. -/
def generateFinalResponse (state : VMap) : String :=
  let result := buildTriageFromChat state
  let response :=
    if result.riskBand = .Red then
      "Based on your answers, this could be serious and needs urgent medical attention. Please call 999 or go to A&E now."
    else if result.riskBand = .Amber then
      "This needs to be assessed today. I recommend contacting NHS 111 or attending an urgent care centre today."
    else if result.redFlags.length > 0 then
      "This doesn\x27t sound immediately dangerous, but you should arrange a GP appointment soon given your symptoms."
    else
      "This sounds like something that can often be managed at home. I\x27ll share some self-care advice with your assessment."
  response ++ SAFETY_NET ++
    "\n\nYour assessment has been recorded and a summary is now available for review."

/-- The red-flag fields whose yes answer escalates immediately
(criticalFlags in the red_flags case). -/
def criticalFlags : List String :=
  ["thunderclap", "nonBlanchingRash", "vomitingBlood", "neurologicalSymptoms",
   "coughingBlood", "bloodyStools"]

/-- The fixed forced-advance stage sequence (stages in the retry-ceiling
block).  Note that rag_followup, collect_name, complete and escalated are
absent, and summary is the last entry. -/
def forcedStages : List Stage :=
  [.opening, .localisation, .time_start, .time_trend, .severity,
   .danger_breathing, .danger_collapse, .danger_severe_pain, .danger_bleeding,
   .danger_confusion, .red_flags, .context_conditions, .context_medications,
   .context_surgery, .functional_eat, .functional_move, .functional_activities,
   .summary]

/-- JavaScript Array.prototype.indexOf: index of the first occurrence, or
-1 when absent. -/
def jsIndexOf (l : List Stage) (a : Stage) : Int :=
  match l.findIdx? (fun b => b == a) with
  | some n => (n : Int)
  | none => -1

/-- JavaScript array indexing stages[i] for the indices reachable in the
retry-ceiling block (0 to 17; the JS expression is stages[currentIndex+1]
with currentIndex in -1..16, and index 0 results from a stage absent from
the list). -/
def stageAt (i : Int) : Stage := forcedStages.getD i.toNat .opening

/-- Result record of processUserMessage. -/
structure StepResult where
  newState : VMap
  newStage : Stage
  response : String
  isEscalation : Bool
  isComplete : Bool
  newRetryCount : Nat
deriving DecidableEq, Repr

/-- Immediate escalation return used by the danger checks and critical red
flags. -/
def escalate (st : VMap) : StepResult :=
  ⟨st, .escalated, EMERGENCY_RESPONSE, true, true, 0⟩

/-- The stage-specific switch of processUserMessage (everything after the
emergency short-circuit and the retry ceiling). -/
def stageStep (gen : GenFn) (input : String) (hist : List ChatMessage)
    (state : VMap) (stage : Stage) (retryCount : Nat) : StepResult :=
  match stage with
  | .opening =>
    match parseComplaint input with
    | some c =>
      let st := setV (setV state "complaint" (.vStr c)) "openingDescription" (.vStr (trimS input))
      ⟨st, .localisation, (getNextQuestion st .localisation).question, false, false, 0⟩
    | none =>
      if (trimS input).length > 10 then
        let st := setV state "openingDescription" (.vStr (trimS input))
        ⟨st, .localisation,
          "Thank you for explaining. " ++ (getNextQuestion st .localisation).question,
          false, false, 0⟩
      else
        ⟨state, .opening, getFallbackPrompt "opening" retryCount, false, false, retryCount + 1⟩
  | .localisation =>
    let location := trimS input
    if location.length > 0 then
      let st1 := setV state "location" (.vStr location)
      let st2 :=
        if truthy (getV st1 "complaint") then st1
        else
          match parseComplaint location with
          | some c => setV st1 "complaint" (.vStr c)
          | none => st1
      ⟨st2, .time_start,
        respOf gen input hist st2 .time_start ((getNextQuestion st2 .time_start).question),
        false, false, 0⟩
    else
      ⟨state, .localisation,
        respOf gen input hist state .localisation ((getNextQuestion state .localisation).question),
        false, false, retryCount + 1⟩
  | .time_start =>
    let onset := trimS input
    if onset.length > 0 then
      let st := setV state "onset" (.vStr onset)
      ⟨st, .time_trend,
        respOf gen input hist st .time_trend ((getNextQuestion st .time_trend).question),
        false, false, 0⟩
    else
      ⟨state, .time_start,
        respOf gen input hist state .time_start ((getNextQuestion state .time_start).question),
        false, false, retryCount + 1⟩
  | .time_trend =>
    let trend := lowerS (trimS input)
    if trend.length > 0 then
      let st1 := setV state "timeTrend" (.vStr trend)
      let st2 :=
        if containsS trend "worse" || containsS trend "worsening" then
          setV st1 "gettingWorse" (.vBool true)
        else st1
      ⟨st2, .severity,
        respOf gen input hist st2 .severity ((getNextQuestion st2 .severity).question),
        false, false, 0⟩
    else
      ⟨state, .time_trend,
        respOf gen input hist state .time_trend ((getNextQuestion state .time_trend).question),
        false, false, retryCount + 1⟩
  | .severity =>
    match parseNumber input with
    | some sev =>
      if 0 ≤ sev ∧ sev ≤ 10 then
        let st := setV state "severity" (.vNum sev)
        ⟨st, .danger_breathing,
          respOf gen input hist st .danger_breathing
            ((getNextQuestion st .danger_breathing).question),
          false, false, 0⟩
      else
        ⟨state, .severity,
          respOf gen input hist state .severity ((getNextQuestion state .severity).question),
          false, false, retryCount + 1⟩
    | none =>
      ⟨state, .severity,
        respOf gen input hist state .severity ((getNextQuestion state .severity).question),
        false, false, retryCount + 1⟩
  | .danger_breathing =>
    match parseYesNo input with
    | some answer =>
      let st := setV state "troubleBreathing" (.vBool answer)
      if answer then escalate st
      else
        ⟨st, .danger_collapse,
          respOf gen input hist st .danger_collapse
            ((getNextQuestion st .danger_collapse).question),
          false, false, 0⟩
    | none =>
      ⟨state, .danger_breathing,
        respOf gen input hist state .danger_breathing
          ((getNextQuestion state .danger_breathing).question),
        false, false, retryCount + 1⟩
  | .danger_collapse =>
    match parseYesNo input with
    | some answer =>
      let st := setV state "collapse" (.vBool answer)
      if answer then escalate st
      else
        ⟨st, .danger_severe_pain,
          respOf gen input hist st .danger_severe_pain
            ((getNextQuestion st .danger_severe_pain).question),
          false, false, 0⟩
    | none =>
      ⟨state, .danger_collapse,
        respOf gen input hist state .danger_collapse
          ((getNextQuestion state .danger_collapse).question),
        false, false, retryCount + 1⟩
  | .danger_severe_pain =>
    match parseYesNo input with
    | some answer =>
      let st := setV state "severePain" (.vBool answer)
      if answer ∧ 8 ≤ numNullish (getV st "severity") 0 then escalate st
      else
        ⟨st, .danger_bleeding,
          respOf gen input hist st .danger_bleeding
            ((getNextQuestion st .danger_bleeding).question),
          false, false, 0⟩
    | none =>
      ⟨state, .danger_severe_pain,
        respOf gen input hist state .danger_severe_pain
          ((getNextQuestion state .danger_severe_pain).question),
        false, false, retryCount + 1⟩
  | .danger_bleeding =>
    match parseYesNo input with
    | some answer =>
      let st := setV state "severeBleeding" (.vBool answer)
      if answer then escalate st
      else
        ⟨st, .danger_confusion,
          respOf gen input hist st .danger_confusion
            ((getNextQuestion st .danger_confusion).question),
          false, false, 0⟩
    | none =>
      ⟨state, .danger_bleeding,
        respOf gen input hist state .danger_bleeding
          ((getNextQuestion state .danger_bleeding).question),
        false, false, retryCount + 1⟩
  | .danger_confusion =>
    match parseYesNo input with
    | some answer =>
      let st := setV state "confusion" (.vBool answer)
      if answer then escalate st
      else
        let nq := getNextQuestion st .red_flags
        let ns := if nq.question = "" then Stage.context_conditions else Stage.red_flags
        ⟨st, ns, respOf gen input hist st ns ((getNextQuestion st ns).question),
          false, false, 0⟩
    | none =>
      ⟨state, .danger_confusion,
        respOf gen input hist state .danger_confusion
          ((getNextQuestion state .danger_confusion).question),
        false, false, retryCount + 1⟩
  | .red_flags =>
    let complaint := jsLowerOpt (getV state "complaint")
    let questions := RED_FLAG_QUESTIONS complaint
    match questions.find? (fun q => (getV state q.field).isNone) with
    | some currentQuestion =>
      match parseYesNo input with
      | some answer =>
        let st := setV state currentQuestion.field (.vBool answer)
        if answer ∧ criticalFlags.contains currentQuestion.field then escalate st
        else
          let nq := getNextQuestion st .red_flags
          if nq.question = "" then
            ⟨setV st "ragQuestionsAsked" (.vNum 0), .rag_followup, "", false, false, 0⟩
          else
            ⟨st, .red_flags, respOf gen input hist st .red_flags nq.question,
              false, false, 0⟩
      | none =>
        ⟨state, .red_flags,
          respOf gen input hist state .red_flags (getFallbackPrompt "red_flags" retryCount),
          false, false, retryCount + 1⟩
    | none =>
      ⟨setV state "ragQuestionsAsked" (.vNum 0), .rag_followup, "", false, false, 0⟩
  | .rag_followup =>
    let ragCount := numOrD (getV state "ragQuestionsAsked") 0
    let st1 := setV state ("ragAnswer" ++ toString ragCount) (.vStr (trimS input))
    let st2 := setV st1 "ragQuestionsAsked" (.vNum (ragCount + 1))
    if ragCount < 2 then ⟨st2, .rag_followup, "", false, false, 0⟩
    else
      ⟨st2, .context_conditions,
        respOf gen input hist st2 .context_conditions
          ((getNextQuestion st2 .context_conditions).question),
        false, false, 0⟩
  | .context_conditions =>
    let v := trimS input
    let st := setV state "medicalHistory" (.vStr (if v = "" then "None reported" else v))
    ⟨st, .context_medications,
      respOf gen input hist st .context_medications
        ((getNextQuestion st .context_medications).question),
      false, false, 0⟩
  | .context_medications =>
    let v := trimS input
    let st := setV state "medications" (.vStr (if v = "" then "None" else v))
    ⟨st, .context_surgery,
      respOf gen input hist st .context_surgery
        ((getNextQuestion st .context_surgery).question),
      false, false, 0⟩
  | .context_surgery =>
    let v := trimS input
    let st := setV state "previousSurgery" (.vStr (if v = "" then "None" else v))
    ⟨st, .functional_eat,
      respOf gen input hist st .functional_eat
        ((getNextQuestion st .functional_eat).question),
      false, false, 0⟩
  | .functional_eat =>
    let answer :=
      match parseYesNo input with
      | some b => b
      | none => !(containsS (lowerS input) "no")
    let st := setV state "canEatDrink" (.vBool answer)
    ⟨st, .functional_move,
      respOf gen input hist st .functional_move
        ((getNextQuestion st .functional_move).question),
      false, false, 0⟩
  | .functional_move =>
    let answer :=
      match parseYesNo input with
      | some b => b
      | none => !(containsS (lowerS input) "no")
    let st := setV state "canMove" (.vBool answer)
    ⟨st, .functional_activities,
      respOf gen input hist st .functional_activities
        ((getNextQuestion st .functional_activities).question),
      false, false, 0⟩
  | .functional_activities =>
    let answer := parseYesNo input
    let st := setV state "stoppingActivities"
      (.vBool (answer == some true || containsS (lowerS input) "yes"))
    ⟨st, .collect_name,
      respOf gen input hist st .collect_name
        ((getNextQuestion st .collect_name).question),
      false, false, 0⟩
  | .collect_name =>
    let name := trimS input
    if 2 ≤ name.length then
      let st := setV state "patientName" (.vStr name)
      ⟨st, .summary,
        respOf gen input hist st .summary ((getNextQuestion st .summary).question),
        false, false, 0⟩
    else
      ⟨state, .collect_name,
        "I need your full name to complete the assessment. Could you please provide your first and last name?",
        false, false, retryCount + 1⟩
  | .summary =>
    match parseYesNo input with
    | some true => ⟨state, .complete, generateFinalResponse state, false, true, 0⟩
    | some false =>
      ⟨[], .opening,
        "No problem, let\x27s start again. " ++ (getNextQuestion state .opening).question,
        false, false, 0⟩
    | none =>
      ⟨state, .summary, "Is the information correct? Please answer yes or no.",
        false, false, retryCount + 1⟩
  | _ =>
    ⟨state, stage, "Thank you for completing the assessment." ++ SAFETY_NET,
      false, true, 0⟩

/-- Turn processor processUserMessage: the emergency short-circuit first,
then the retry ceiling (the nested source condition — retry at the maximum
and the stage index below the last list position — falls through to the
switch exactly when the conjunction fails), then the stage switch. -/
def processUserMessage (gen : GenFn) (input : String) (hist : List ChatMessage)
    (state : VMap) (stage : Stage) (retryCount : Nat) : StepResult :=
  if checkEmergencySigns input then
    ⟨state, .escalated, EMERGENCY_RESPONSE, true, true, 0⟩
  else if 3 ≤ retryCount ∧ jsIndexOf forcedStages stage < 17 then
    let ns := stageAt (jsIndexOf forcedStages stage + 1)
    ⟨state, ns, (getNextQuestion state ns).question, false, false, 0⟩
  else
    stageStep gen input hist state stage retryCount

/-- The successor function induced by the forced-advance sequence (next
entry of forcedStages; identity elsewhere, unused). -/
def forcedNext : Stage → Stage
  | .opening => .localisation
  | .localisation => .time_start
  | .time_start => .time_trend
  | .time_trend => .severity
  | .severity => .danger_breathing
  | .danger_breathing => .danger_collapse
  | .danger_collapse => .danger_severe_pain
  | .danger_severe_pain => .danger_bleeding
  | .danger_bleeding => .danger_confusion
  | .danger_confusion => .red_flags
  | .red_flags => .context_conditions
  | .context_conditions => .context_medications
  | .context_medications => .context_surgery
  | .context_surgery => .functional_eat
  | .functional_eat => .functional_move
  | .functional_move => .functional_activities
  | .functional_activities => .summary
  | s => s

/-- C9 failing turn 1: three failed name attempts put the session at
collect_name with retry count 3; the next turn force-jumps to opening with
the collected state intact. -/
def c9State : VMap :=
  [("complaint", Value.vStr "chest pain"), ("location", Value.vStr "chest"),
   ("severity", Value.vNum 3)]

/-- C9 failing turn 1 result. -/
def c9Step1 : StepResult := processUserMessage gen0 "x" [] c9State .collect_name 3

/-- C9 failing turn 2 result: the opening stage re-runs over the old state. -/
def c9Step2 : StepResult :=
  processUserMessage gen0 "now my headache is terrible" [] c9Step1.newState
    c9Step1.newStage c9Step1.newRetryCount

/-- C4 witness answers record: the chest-pain scenario of spec property 8
(age 55, severity 7, shortness of breath). -/
def c4wAnswers : Answers :=
  ⟨"chest pain", 55, "m", 7, fun k => k == "shortnessOfBreath"⟩

/-! ## Theorems -/

theorem getV_setV (m : VMap) (k k' : String) (v : Value) :
    getV (setV m k v) k' = if k = k' then some v else getV m k' := by
  simp [getV, setV]

theorem getV_append (x y : VMap) (k : String) :
    getV (x ++ y) k = ((getV x k).rec (getV y k) fun v => some v : Option Value) := by
  induction x with
  | nil => rfl
  | cons p t ih =>
    by_cases hp : p.1 = k
    · simp [getV, hp]
    · simpa [getV, hp] using ih

theorem getV_mergeV (a b : VMap) (k : String) :
    getV (mergeV a b) k = ((getV b k).rec (getV a k) fun v => some v : Option Value) := by
  unfold mergeV
  exact getV_append b a k

/-- C4: band characterization of evaluateTriage.  Any collected flag forces
Red regardless of severity and age; with no flag, Amber exactly when
severity is at least 6 or age exceeds 75, and Green otherwise. -/
theorem evaluateTriage_band_characterization (a : Answers) :
    ((evaluateTriage a).riskBand = .Red ↔ (evaluateTriage a).redFlags ≠ []) ∧
    ((evaluateTriage a).riskBand = .Amber ↔
      (evaluateTriage a).redFlags = [] ∧ (a.severity ≥ 6 ∨ a.age > 75)) ∧
    ((evaluateTriage a).riskBand = .Green ↔
      (evaluateTriage a).redFlags = [] ∧ ¬(a.severity ≥ 6 ∨ a.age > 75)) := by
  have hb : (evaluateTriage a).riskBand =
      (if (triageFlags a).length > 0 then RiskBand.Red
       else if a.severity ≥ 6 ∨ a.age > 75 then RiskBand.Amber else RiskBand.Green) := rfl
  have hf : (evaluateTriage a).redFlags = triageFlags a := rfl
  rw [hb, hf]
  generalize triageFlags a = fl
  by_cases h : fl.length > 0
  · have hne : fl ≠ [] := by
      intro hh; rw [hh] at h; simp at h
    simp [h, hne]
  · have he : fl = [] := by
      cases fl with
      | nil => rfl
      | cons x t => simp at h
    by_cases h2 : a.severity ≥ 6 ∨ a.age > 75
    · simp [h, he, h2]
    · simp [h, he, h2]

/-- C4 witness: the characterization applied at the concrete chest-pain
record, whose band evaluates to Red with a non-empty flag list. -/
theorem evaluateTriage_band_characterization_witness :
    (evaluateTriage c4wAnswers).riskBand = .Red ∧
    (evaluateTriage c4wAnswers).redFlags ≠ [] ∧
    (((evaluateTriage c4wAnswers).riskBand = .Red ↔
        (evaluateTriage c4wAnswers).redFlags ≠ []) ∧
      ((evaluateTriage c4wAnswers).riskBand = .Amber ↔
        (evaluateTriage c4wAnswers).redFlags = [] ∧
          (c4wAnswers.severity ≥ 6 ∨ c4wAnswers.age > 75)) ∧
      ((evaluateTriage c4wAnswers).riskBand = .Green ↔
        (evaluateTriage c4wAnswers).redFlags = [] ∧
          ¬(c4wAnswers.severity ≥ 6 ∨ c4wAnswers.age > 75))) :=
  ⟨by decide, by decide, evaluateTriage_band_characterization c4wAnswers⟩

theorem evaluateRedFlags_filter (rules : List RedFlagRule) (facts : VMap) :
    (evaluateRedFlags rules facts).triggered =
      (rules.filter (fun r => ruleMatches facts r)).map
        (fun r => ⟨r.code, r.label, r.evidencePrompt⟩) ∧
    (evaluateRedFlags rules facts).notTriggered =
      (rules.filter (fun r => !ruleMatches facts r && ruleAssessable facts r)).map
        (fun r => r.label) ∧
    (evaluateRedFlags rules facts).notAssessed =
      (rules.filter (fun r => !ruleMatches facts r && !ruleAssessable facts r)).map
        (fun r => r.label) := by
  induction rules with
  | nil => exact ⟨rfl, rfl, rfl⟩
  | cons r rest ih =>
    obtain ⟨ih1, ih2, ih3⟩ := ih
    by_cases hm : ruleMatches facts r
    · simp [evaluateRedFlags, hm, List.filter_cons, ih1, ih2, ih3]
    · by_cases ha : ruleAssessable facts r
      · simp [evaluateRedFlags, hm, ha, List.filter_cons, ih1, ih2, ih3]
      · simp [evaluateRedFlags, hm, ha, List.filter_cons, ih1, ih2, ih3]

/-- C8: red-flag trichotomy.  Over any rule table and fact record, the
three output lists are exactly the rules filtered by matched /
assessable-but-unmatched / unassessable-and-unmatched, so every rule lands
in exactly one list and the list lengths sum to the table length; an
unmatched rule is notAssessed precisely when none of its referenced fact
keys is present; and a gte or lte criterion over a missing or non-numeric
fact value evaluates to false rather than raising. -/
theorem evaluateRedFlags_trichotomy (rules : List RedFlagRule) (facts : VMap) :
    ((evaluateRedFlags rules facts).triggered =
      (rules.filter (fun r => ruleMatches facts r)).map
        (fun r => ⟨r.code, r.label, r.evidencePrompt⟩)) ∧
    ((evaluateRedFlags rules facts).notTriggered =
      (rules.filter (fun r => !ruleMatches facts r && ruleAssessable facts r)).map
        (fun r => r.label)) ∧
    ((evaluateRedFlags rules facts).notAssessed =
      (rules.filter (fun r => !ruleMatches facts r && !ruleAssessable facts r)).map
        (fun r => r.label)) ∧
    ((evaluateRedFlags rules facts).triggered.length +
      (evaluateRedFlags rules facts).notTriggered.length +
      (evaluateRedFlags rules facts).notAssessed.length = rules.length) ∧
    (∀ c : Criterion, c.op ≠ .eq → isNumValue (getV facts c.fact) = false →
      evalCriterion facts c = false) := by
  obtain ⟨h1, h2, h3⟩ := evaluateRedFlags_filter rules facts
  refine ⟨h1, h2, h3, ?_, ?_⟩
  · clear h1 h2 h3
    induction rules with
    | nil => rfl
    | cons r rest ih =>
      by_cases hm : ruleMatches facts r
      · simp only [evaluateRedFlags, hm, if_true, List.length_cons]
        omega
      · by_cases ha : ruleAssessable facts r
        · simp only [evaluateRedFlags, hm, ha, Bool.false_eq_true, if_false, if_true,
            List.length_cons]
          omega
        · simp only [evaluateRedFlags, hm, ha, Bool.false_eq_true, if_false,
            List.length_cons]
          omega
  · intro c hop hnum
    unfold evalCriterion
    cases c with
    | mk fact op value =>
      cases op with
      | eq => exact absurd rfl hop
      | gte =>
        simp only []
        cases hv : getV facts fact with
        | none => rfl
        | some v =>
          cases v with
          | vStr s => rfl
          | vNum n => rw [hv] at hnum; simp [isNumValue] at hnum
          | vBool b => rfl
      | lte =>
        simp only []
        cases hv : getV facts fact with
        | none => rfl
        | some v =>
          cases v with
          | vStr s => rfl
          | vNum n => rw [hv] at hnum; simp [isNumValue] at hnum
          | vBool b => rfl

/-- C8 witness: the trichotomy theorem applied at a concrete table, fact
record and non-numeric gte criterion. -/
theorem evaluateRedFlags_trichotomy_witness :
    (Criterion.mk "onset" .gte (.vNum 3)).op ≠ CritOp.eq ∧
    isNumValue (getV [("onset", Value.vStr "today")] "onset") = false ∧
    evalCriterion [("onset", Value.vStr "today")] ⟨"onset", .gte, .vNum 3⟩ = false ∧
    (evaluateRedFlags
      [⟨"RF1", "Very severe pain", "", some [⟨"severity_score", .gte, .vNum 9⟩], none⟩]
      [("onset", Value.vStr "today")]).triggered.length +
    (evaluateRedFlags
      [⟨"RF1", "Very severe pain", "", some [⟨"severity_score", .gte, .vNum 9⟩], none⟩]
      [("onset", Value.vStr "today")]).notTriggered.length +
    (evaluateRedFlags
      [⟨"RF1", "Very severe pain", "", some [⟨"severity_score", .gte, .vNum 9⟩], none⟩]
      [("onset", Value.vStr "today")]).notAssessed.length = 1 :=
  ⟨by decide, by decide,
    (evaluateRedFlags_trichotomy
      [⟨"RF1", "Very severe pain", "", some [⟨"severity_score", .gte, .vNum 9⟩], none⟩]
      [("onset", Value.vStr "today")]).2.2.2.2
      ⟨"onset", .gte, .vNum 3⟩ (by decide) (by decide),
    (evaluateRedFlags_trichotomy
      [⟨"RF1", "Very severe pain", "", some [⟨"severity_score", .gte, .vNum 9⟩], none⟩]
      [("onset", Value.vStr "today")]).2.2.2.1⟩

/-! ## Lemmas about the fact-admission and negation loops -/

theorem factStep_pass (t : String) (det : VMap) (acc : VMap × List DivergenceEvent)
    (f : FactEntry) (h : factAdmitted t f = true) :
    factStep t det acc f =
      (setV acc.1 f.key f.value,
        match getV det f.key with
        | some dv => if dv ≠ f.value then acc.2 ++ [⟨f.key, f.value, dv⟩] else acc.2
        | none => acc.2) := by
  unfold factAdmitted at h
  rw [Bool.and_eq_true] at h
  obtain ⟨h1, h2⟩ := h
  unfold factStep
  rw [if_neg, if_neg]
  · intro hc
    rw [hc] at h2
    simp at h2
  · intro hc
    rw [decide_eq_true_iff] at h1
    omega

theorem factStep_skip (t : String) (det : VMap) (acc : VMap × List DivergenceEvent)
    (f : FactEntry) (h : factAdmitted t f = false) :
    factStep t det acc f = acc := by
  unfold factAdmitted at h
  rw [Bool.and_eq_false_iff] at h
  unfold factStep
  cases h with
  | inl h1 =>
    rw [if_pos]
    rw [decide_eq_false_iff_not] at h1
    omega
  | inr h2 =>
    by_cases hc : f.confidence < requiredThreshold f.key
    · rw [if_pos hc]
    · rw [if_neg hc, if_pos]
      simpa using h2

theorem factLoop_other_keys (t : String) (det : VMap) (l : List FactEntry) (k : String)
    (acc : VMap × List DivergenceEvent) (h : ∀ f ∈ l, f.key ≠ k) :
    getV (List.foldl (factStep t det) acc l).1 k = getV acc.1 k ∧
    (List.foldl (factStep t det) acc l).2.filter (fun d => d.key == k) =
      acc.2.filter (fun d => d.key == k) := by
  induction l generalizing acc with
  | nil => exact ⟨rfl, rfl⟩
  | cons f rest ih =>
    have hf : f.key ≠ k := h f (by simp)
    have hrest : ∀ g ∈ rest, g.key ≠ k := fun g hg => h g (by simp [hg])
    have step : getV (factStep t det acc f).1 k = getV acc.1 k ∧
        (factStep t det acc f).2.filter (fun d => d.key == k) =
          acc.2.filter (fun d => d.key == k) := by
      by_cases hadm : factAdmitted t f
      · rw [factStep_pass t det acc f hadm]
        constructor
        · rw [getV_setV]
          simp [hf]
        · cases hd : getV det f.key with
          | none => rfl
          | some dv =>
            by_cases hne : dv = f.value
            · simp [hne]
            · simp only [ne_eq, hne, not_false_eq_true, if_true, List.filter_append]
              simp [hf]
      · rw [factStep_skip t det acc f (by simpa using hadm)]
        exact ⟨rfl, rfl⟩
    have := ih (factStep t det acc f) hrest
    exact ⟨by rw [List.foldl_cons, this.1, step.1], by rw [List.foldl_cons, this.2, step.2]⟩

theorem negLoop_preserves_false (negs : List FactEntry) (acc : VMap) (k : String)
    (h : getV acc k = some (.vBool false)) :
    getV (List.foldl negationStep acc negs) k = some (.vBool false) := by
  induction negs generalizing acc with
  | nil => exact h
  | cons g rest ih =>
    rw [List.foldl_cons]
    apply ih
    unfold negationStep
    by_cases hc : g.confidence < requiredThreshold g.key
    · rw [if_pos hc]; exact h
    · rw [if_neg hc, getV_setV]
      by_cases hk : g.key = k
      · simp [hk]
      · simp [hk, h]

theorem negLoop_skips (negs : List FactEntry) (acc : VMap) (k : String)
    (h : ∀ g ∈ negs, g.key ≠ k ∨ g.confidence < requiredThreshold g.key) :
    getV (List.foldl negationStep acc negs) k = getV acc k := by
  induction negs generalizing acc with
  | nil => rfl
  | cons g rest ih =>
    rw [List.foldl_cons]
    rw [ih _ (fun g' hg' => h g' (by simp [hg']))]
    unfold negationStep
    by_cases hc : g.confidence < requiredThreshold g.key
    · rw [if_pos hc]
    · rw [if_neg hc, getV_setV]
      cases h g (by simp) with
      | inl hk => rw [if_neg hk]
      | inr hcc => omega

theorem negLoop_sets_false (negs : List FactEntry) (acc : VMap) (k : String)
    (h : ∃ g ∈ negs, g.key = k ∧ requiredThreshold g.key ≤ g.confidence) :
    getV (List.foldl negationStep acc negs) k = some (.vBool false) := by
  induction negs generalizing acc with
  | nil => simp at h
  | cons g rest ih =>
    rw [List.foldl_cons]
    by_cases hg : g.key = k ∧ requiredThreshold g.key ≤ g.confidence
    · apply negLoop_preserves_false
      unfold negationStep
      rw [if_neg (by omega), getV_setV]
      simp [hg.1]
    · apply ih
      obtain ⟨g', hg', hk', hc'⟩ := h
      rcases List.mem_cons.mp hg' with hh | hh
      · subst hh
        exact absurd ⟨hk', hc'⟩ hg
      · exact ⟨g', hh, hk', hc'⟩

theorem extractFacts_eq_of_llm (messages : List ChatMessage) (existing : VMap)
    (r : LlmExtraction) (htext : ¬ trimS (patientTextOf messages) = "") :
    extractFactsFromMessages messages existing (some r) =
      (List.foldl negationStep
        (List.foldl (factStep (patientTextOf messages) (deterministicFactsFromState existing))
          (mergeV existing (deterministicFactsFromState existing), []) r.facts).1 r.negations,
       (List.foldl (factStep (patientTextOf messages) (deterministicFactsFromState existing))
          (mergeV existing (deterministicFactsFromState existing), []) r.facts).2) := by
  unfold extractFactsFromMessages
  rw [if_neg htext]

/-- C1 counterexample: the LLM fact passes every gate and its key diverges
from the deterministic projection, yet the returned record holds the LLM
value 7, not the deterministic value 5 (exactly one divergence event is
emitted, but the deterministic value is not retained, refuting the claim at
this input). -/
theorem extractFacts_det_not_authoritative_cex :
    getV (deterministicFactsFromState c1State) "severity_score" = some (Value.vNum 5) ∧
    factAdmitted (patientTextOf c1Messages) ⟨"severity_score", Value.vNum 7, 90⟩ = true ∧
    (extractFactsFromMessages c1Messages c1State (some c1Llm)).2 =
      [⟨"severity_score", Value.vNum 7, Value.vNum 5⟩] ∧
    getV (extractFactsFromMessages c1Messages c1State (some c1Llm)).1 "severity_score" =
      some (Value.vNum 7) ∧
    ¬ getV (extractFactsFromMessages c1Messages c1State (some c1Llm)).1 "severity_score" =
      some (Value.vNum 5) := by
  decide

/-- C1 as amended: when an extracted fact passes the confidence and
corroboration gates and its key is the unique occurrence of that key in the
extraction, and the deterministic projection disagrees, the admitted LLM
value replaces the deterministic value in the returned record, and exactly
one divergence event for that key is emitted on the side channel (the
events for that key are exactly the one recording the LLM and deterministic
values). -/
theorem extractFacts_llm_value_overrides (messages : List ChatMessage) (existing : VMap)
    (r : LlmExtraction) (k : String) (dv : Value) (e : FactEntry) (l1 l2 : List FactEntry)
    (hsplit : r.facts = l1 ++ e :: l2)
    (hk : e.key = k)
    (honly : ∀ f ∈ l1 ++ l2, f.key ≠ k)
    (hadm : factAdmitted (patientTextOf messages) e = true)
    (hdet : getV (deterministicFactsFromState existing) k = some dv)
    (hne : dv ≠ e.value)
    (hneg : ∀ g ∈ r.negations, g.key ≠ k ∨ g.confidence < requiredThreshold g.key)
    (htext : ¬ trimS (patientTextOf messages) = "") :
    getV (extractFactsFromMessages messages existing (some r)).1 k = some e.value ∧
    (extractFactsFromMessages messages existing (some r)).2.filter (fun d => d.key == k) =
      [⟨k, e.value, dv⟩] := by
  rw [extractFacts_eq_of_llm messages existing r htext]
  simp only []
  rw [hsplit]
  set t := patientTextOf messages with ht
  set det := deterministicFactsFromState existing with hdet2
  set acc0 : VMap × List DivergenceEvent := (mergeV existing det, []) with hacc0
  have h1 : ∀ f ∈ l1, f.key ≠ k := fun f hf => honly f (List.mem_append_left _ hf)
  have h2 : ∀ f ∈ l2, f.key ≠ k := fun f hf => honly f (List.mem_append_right _ hf)
  rw [List.foldl_append, List.foldl_cons]
  set accA := List.foldl (factStep t det) acc0 l1 with haccA
  have hA := factLoop_other_keys t det l1 k acc0 h1
  rw [← haccA] at hA
  have hdk : getV det e.key = some dv := by rw [hk]; exact hdet
  have hstep : factStep t det accA e =
      (setV accA.1 e.key e.value, accA.2 ++ [⟨e.key, e.value, dv⟩]) := by
    rw [factStep_pass t det accA e hadm, hdk]
    simp [hne]
  have hB := factLoop_other_keys t det l2 k (factStep t det accA e) h2
  constructor
  · rw [negLoop_skips r.negations _ k hneg]
    rw [hB.1, hstep]
    simp only []
    rw [getV_setV]
    rw [if_pos hk]
  · rw [hB.2, hstep]
    simp only [List.filter_append]
    rw [hA.2]
    simp [hk]

/-- C1 witness: the amended theorem applied at a concrete input, with every
hypothesis discharged by evaluation. -/
theorem extractFacts_llm_value_overrides_witness :
    getV (extractFactsFromMessages c1wMessages c1wState (some c1wLlm)).1 "severity_score" =
      some (Value.vNum 8) ∧
    (extractFactsFromMessages c1wMessages c1wState (some c1wLlm)).2.filter
      (fun d => d.key == "severity_score") =
      [⟨"severity_score", Value.vNum 8, Value.vNum 6⟩] :=
  extractFacts_llm_value_overrides c1wMessages c1wState c1wLlm "severity_score"
    (Value.vNum 6) ⟨"severity_score", Value.vNum 8, 80⟩ [] []
    rfl rfl (by intro f hf; simp at hf) (by decide) (by decide) (by decide)
    (by intro g hg; simp [c1wLlm] at hg) (by decide)

/-- C7 counterexample: fever is a critical fact key, the negation has
confidence 60 which is at or above the default threshold 50, yet the
returned record does not set fever to false (the negation gate uses the
per-key threshold 70 for critical keys), refuting the claim at this
input. -/
theorem extractFacts_negation_default_gate_cex :
    CRITICAL_FACT_KEYS.contains "fever" = true ∧
    (CONFIDENCE_DEFAULT ≤ 60 ∧ 60 < CONFIDENCE_CRITICAL) ∧
    getV (extractFactsFromMessages c7Messages [] (some c7Llm)).1 "fever" = none ∧
    ¬ getV (extractFactsFromMessages c7Messages [] (some c7Llm)).1 "fever" =
      some (Value.vBool false) := by
  decide

/-- C7 as amended: a negation is admitted under the same per-key confidence
gate as positive facts (70 for critical keys, 50 otherwise) and, when
admitted, sets the fact to false unconditionally in the returned record. -/
theorem extractFacts_negation_per_key_gate (messages : List ChatMessage) (existing : VMap)
    (r : LlmExtraction) (k : String) (g : FactEntry)
    (hg : g ∈ r.negations) (hk : g.key = k)
    (hconf : requiredThreshold g.key ≤ g.confidence)
    (htext : ¬ trimS (patientTextOf messages) = "") :
    getV (extractFactsFromMessages messages existing (some r)).1 k = some (.vBool false) := by
  rw [extractFacts_eq_of_llm messages existing r htext]
  exact negLoop_sets_false r.negations _ k ⟨g, hg, hk, hconf⟩

/-- C7 witness: the amended theorem applied at a concrete admitted
negation. -/
theorem extractFacts_negation_per_key_gate_witness :
    getV (extractFactsFromMessages c7wMessages [] (some c7wLlm)).1 "nausea" =
      some (Value.vBool false) :=
  extractFacts_negation_per_key_gate c7wMessages [] c7wLlm "nausea"
    ⟨"nausea", Value.vBool true, 55⟩ (by decide) rfl (by decide) (by decide)

theorem evaluateTriage_congr (a b : Answers)
    (hc : a.complaint = b.complaint) (ha : a.age = b.age) (hx : a.sex = b.sex)
    (hs : a.severity = b.severity)
    (hf : ∀ k ∈ triageFlagKeys, a.flag k = b.flag k) :
    evaluateTriage a = evaluateTriage b := by
  obtain ⟨ac, aa, ax, as, af⟩ := a
  obtain ⟨bc, ba, bx, bs, bf⟩ := b
  simp only [] at hc ha hx hs hf
  subst hc; subst ha; subst hx; subst hs
  have h01 := hf "confusion" (by simp [triageFlagKeys])
  have h02 := hf "severeBleeding" (by simp [triageFlagKeys])
  have h03 := hf "shortnessOfBreath" (by simp [triageFlagKeys])
  have h04 := hf "radiatingPain" (by simp [triageFlagKeys])
  have h05 := hf "cardiacHistory" (by simp [triageFlagKeys])
  have h06 := hf "cyanosis" (by simp [triageFlagKeys])
  have h07 := hf "speakingDifficulty" (by simp [triageFlagKeys])
  have h08 := hf "vomitingBlood" (by simp [triageFlagKeys])
  have h09 := hf "rigidAbdomen" (by simp [triageFlagKeys])
  have h10 := hf "pregnancy" (by simp [triageFlagKeys])
  have h11 := hf "bleeding" (by simp [triageFlagKeys])
  have h12 := hf "thunderclap" (by simp [triageFlagKeys])
  have h13 := hf "neckStiffness" (by simp [triageFlagKeys])
  have h14 := hf "visualDisturbance" (by simp [triageFlagKeys])
  simp only [] at h01 h02 h03 h04 h05 h06 h07 h08 h09 h10 h11 h12 h13 h14
  simp only [evaluateTriage, triageFlags, h01, h02, h03, h04, h05, h06, h07,
    h08, h09, h10, h11, h12, h13, h14]

theorem answers_projections_agree (state : VMap)
    (hB : truthy (getV state "bleeding") = false)
    (hS : (getV state "shortnessOfBreath").isSome = true ∨
      truthy (getV state "troubleBreathing") = false) :
    ∀ k ∈ triageFlagKeys,
      (buildAnswersFromState state).flag k = (buildTriageAnswers state).flag k := by
  intro k hk
  fin_cases hk
  · rfl
  · rfl
  · show (buildAnswersFromState state).flag "shortnessOfBreath" =
      (buildTriageAnswers state).flag "shortnessOfBreath"
    have hR : (buildTriageAnswers state).flag "shortnessOfBreath" =
        truthy (getV state "shortnessOfBreath") := by
      simp only [buildTriageAnswers]
      rw [if_pos (by decide : chatAnswerKeys.contains "shortnessOfBreath" = true)]
    have hL : (buildAnswersFromState state).flag "shortnessOfBreath" =
        (match getV state "shortnessOfBreath" with
         | some v => truthy (some v)
         | none => truthy (getV state "troubleBreathing")) := by
      simp [buildAnswersFromState]
    rw [hL, hR]
    cases hsob : getV state "shortnessOfBreath" with
    | some v => rfl
    | none =>
      cases hS with
      | inl h => rw [hsob] at h; simp at h
      | inr h => rw [h]; rfl
  · rfl
  · rfl
  · rfl
  · rfl
  · rfl
  · rfl
  · rfl
  · show (buildAnswersFromState state).flag "bleeding" =
      (buildTriageAnswers state).flag "bleeding"
    simp only [buildAnswersFromState, buildTriageAnswers]
    rw [if_neg (by decide)]
    have : chatAnswerKeys.contains "bleeding" = false := by decide
    simp [this, hB]
  · rfl
  · rfl
  · rfl

/-- C2 counterexample: a session escalated at the opening stage leaves the
chat state empty; the stored risk band is Red (escalations are always
stored Red) while the handoff re-runs the rules engine over the state
projection and records Green, so the handoff category drifts from the
stored band, refuting the claim at this input. -/
theorem handoff_category_drift_cex :
    storedRiskBand true [] = .Red ∧
    handoffRulesEngineCategory [] = .Green ∧
    ¬ handoffRulesEngineCategory [] = storedRiskBand true [] := by
  decide

/-- C2 as amended: the handoff category equals the stored band for
non-escalated submissions provided the state carries no truthy bleeding
field and no troubleBreathing-without-shortnessOfBreath discrepancy (the
two projections otherwise disagree); escalated sessions are stored Red
while the handoff records the recomputed category, which may be lower. -/
theorem handoff_category_matches_stored :
    (∀ state : VMap, truthy (getV state "bleeding") = false →
      ((getV state "shortnessOfBreath").isSome = true ∨
        truthy (getV state "troubleBreathing") = false) →
      handoffRulesEngineCategory state = storedRiskBand false state) ∧
    (∀ state : VMap, storedRiskBand true state = .Red) := by
  constructor
  · intro state hB hS
    unfold handoffRulesEngineCategory storedRiskBand buildTriageFromChat
    rw [if_neg (by simp)]
    rw [evaluateTriage_congr (buildAnswersFromState state) (buildTriageAnswers state)
      rfl rfl rfl rfl (answers_projections_agree state hB hS)]
  · intro state
    rfl

/-- C2 witness: the amended theorem applied at a concrete non-escalated
state (both sides evaluate to Red) and at a concrete escalated state. -/
theorem handoff_category_matches_stored_witness :
    truthy (getV c2wState "bleeding") = false ∧
    (getV c2wState "shortnessOfBreath").isSome = true ∧
    handoffRulesEngineCategory c2wState = storedRiskBand false c2wState ∧
    storedRiskBand true c2wState = .Red :=
  ⟨by decide, by decide,
    handoff_category_matches_stored.1 c2wState (by decide) (Or.inl (by decide)),
    handoff_category_matches_stored.2 c2wState⟩

theorem forced_props : ∀ s ∈ forcedStages, s ≠ Stage.summary →
    (jsIndexOf forcedStages s < 17 ∧
      stageAt (jsIndexOf forcedStages s + 1) = forcedNext s) := by
  decide

/-- C3: escalation precedence.  Whenever the raw input matches an emergency
keyword, processUserMessage returns stage escalated with the fixed
emergency message, isEscalation and isComplete set, retry count 0 and the
chat state unchanged, at every current stage and before any stage-specific
parsing or retry handling. -/
theorem emergency_short_circuit (gen : GenFn) (input : String) (hist : List ChatMessage)
    (state : VMap) (stage : Stage) (retry : Nat)
    (h : checkEmergencySigns input = true) :
    processUserMessage gen input hist state stage retry =
      ⟨state, .escalated, EMERGENCY_RESPONSE, true, true, 0⟩ := by
  unfold processUserMessage
  rw [if_pos h]

/-- C3 witness: the escalation theorem applied at a concrete mid-interview
turn. -/
theorem emergency_short_circuit_witness :
    checkEmergencySigns "I can\x27t breathe" = true ∧
    processUserMessage gen0 "I can\x27t breathe" [] [("complaint", Value.vStr "headache")]
        .severity 1 =
      ⟨[("complaint", Value.vStr "headache")], .escalated, EMERGENCY_RESPONSE, true, true, 0⟩ :=
  ⟨by decide,
    emergency_short_circuit gen0 "I can\x27t breathe" []
      [("complaint", Value.vStr "headache")] .severity 1 (by decide)⟩

/-- C5: fever is a standalone entry of the emergency keyword list, so an
input reporting only a fever (no stiff neck, no other keyword) fires the
short-circuit and escalates at the opening stage, although parseComplaint
classifies the same input as the supported fever complaint; the
conjunctive stiff-neck-with-fever reading of the keyword policy (as stated
by the patient-facing system prompt of the same module) is not what the
code implements. -/
theorem fever_alone_triggers_emergency :
    checkEmergencySigns "I have had a fever since yesterday" = true ∧
    containsS (lowerS "I have had a fever since yesterday") "stiff neck" = false ∧
    parseComplaint "I have had a fever since yesterday" = some "fever" ∧
    processUserMessage gen0 "I have had a fever since yesterday" [] [] .opening 0 =
      ⟨[], .escalated, EMERGENCY_RESPONSE, true, true, 0⟩ := by
  decide

/-- C6 counterexample: collect_name is absent from the forced-advance
list, so at retry count 3 the source computes indexOf -1 and advances to
stages[0]: the turn force-jumps to opening (state carried, retry reset)
instead of retrying the name question indefinitely, refuting the claimed
exemption. -/
theorem collect_name_not_exempt_cex :
    processUserMessage gen0 "x" [] [("complaint", Value.vStr "chest pain")]
        .collect_name 3 =
      ⟨[("complaint", Value.vStr "chest pain")], .opening,
        (getNextQuestion [("complaint", Value.vStr "chest pain")] .opening).question,
        false, false, 0⟩ := by
  decide

/-- C6 as amended: with retry count at least 3 and no emergency keyword,
every stage of the forced-advance sequence except summary advances to the
next stage of the sequence with the state carried and the retry count
reset to 0; collect_name is not exempt — it force-jumps to opening (index
-1 plus 1) with state carried; and summary never force-advances — an
unparseable confirmation at summary keeps retrying. -/
theorem retry_ceiling :
    (∀ (gen : GenFn) (input : String) (hist : List ChatMessage) (state : VMap)
        (stage : Stage) (retry : Nat),
      checkEmergencySigns input = false → 3 ≤ retry →
      stage ∈ forcedStages → stage ≠ .summary →
      processUserMessage gen input hist state stage retry =
        ⟨state, forcedNext stage, (getNextQuestion state (forcedNext stage)).question,
          false, false, 0⟩) ∧
    (∀ (gen : GenFn) (input : String) (hist : List ChatMessage) (state : VMap)
        (retry : Nat),
      checkEmergencySigns input = false → 3 ≤ retry →
      processUserMessage gen input hist state .collect_name retry =
        ⟨state, .opening, (getNextQuestion state .opening).question, false, false, 0⟩) ∧
    (∀ (gen : GenFn) (input : String) (hist : List ChatMessage) (state : VMap)
        (retry : Nat),
      checkEmergencySigns input = false → 3 ≤ retry → parseYesNo input = none →
      processUserMessage gen input hist state .summary retry =
        ⟨state, .summary, "Is the information correct? Please answer yes or no.",
          false, false, retry + 1⟩) := by
  refine ⟨?_, ?_, ?_⟩
  · intro gen input hist state stage retry hE h3 hmem hne
    have hp := forced_props stage hmem hne
    unfold processUserMessage
    rw [if_neg (by simp [hE])]
    rw [if_pos ⟨h3, hp.1⟩]
    simp only [hp.2]
  · intro gen input hist state retry hE h3
    unfold processUserMessage
    rw [if_neg (by simp [hE])]
    rw [if_pos ⟨h3, by decide⟩]
    simp only [show stageAt (jsIndexOf forcedStages Stage.collect_name + 1) = Stage.opening
      from by decide]
  · intro gen input hist state retry hE h3 hpn
    unfold processUserMessage
    rw [if_neg (by simp [hE])]
    rw [if_neg (fun hcc => absurd hcc.2 (by decide))]
    simp only [stageStep, hpn]

/-- C6 witness: forced advance from time_start to time_trend at retry 3,
the collect_name jump to opening at retry 5, and the summary stage staying
at summary with the retry count incremented. -/
theorem retry_ceiling_witness :
    processUserMessage gen0 "blah" [] [("complaint", Value.vStr "fever")] .time_start 3 =
      ⟨[("complaint", Value.vStr "fever")], .time_trend,
        (getNextQuestion [("complaint", Value.vStr "fever")] .time_trend).question,
        false, false, 0⟩ ∧
    processUserMessage gen0 "z" [] [] .collect_name 5 =
      ⟨[], .opening, (getNextQuestion [] .opening).question, false, false, 0⟩ ∧
    processUserMessage gen0 "blah" [] [] .summary 3 =
      ⟨[], .summary, "Is the information correct? Please answer yes or no.",
        false, false, 4⟩ :=
  ⟨retry_ceiling.1 gen0 "blah" [] [("complaint", Value.vStr "fever")] .time_start 3
      (by decide) (by decide) (by decide) (by decide),
    retry_ceiling.2.1 gen0 "z" [] [] 5 (by decide) (by decide),
    retry_ceiling.2.2 gen0 "blah" [] [] 3 (by decide) (by decide) (by decide)⟩

/-- C9: the write-once invariant fails on this two-turn sequence.  After
the forced jump from collect_name to opening (stage list omission plus the
indexOf -1 slip), the opening stage re-parses the next input and silently
overwrites the previously set complaint (chest pain becomes headache)
while the rest of the state is carried — no summary-rejection reset (which
would empty the state) ever happened. -/
theorem chatState_overwritten_without_reset :
    c9Step1.newStage = .opening ∧
    c9Step1.newState = c9State ∧
    c9Step1.newRetryCount = 0 ∧
    getV c9State "complaint" = some (.vStr "chest pain") ∧
    getV c9Step2.newState "complaint" = some (.vStr "headache") ∧
    getV c9Step2.newState "location" = some (.vStr "chest") ∧
    ¬ c9Step2.newState = ([] : VMap) ∧
    c9Step2.newStage = .localisation := by
  decide

/-- C10: at the severity stage (below the retry ceiling and with no
emergency keyword), a first digit run parsing to n with 0 at most n at
most 10 stores severity n and advances to danger_breathing; any other
input leaves the state unchanged at the severity stage and increments the
retry count; consequently the stage never stores a severity outside 0 to
10. -/
theorem severity_range_gate (gen : GenFn) (input : String) (hist : List ChatMessage)
    (state : VMap) (retry : Nat)
    (hE : checkEmergencySigns input = false) (hr : retry < 3) :
    (∀ n : Int, parseNumber input = some n → 0 ≤ n ∧ n ≤ 10 →
      processUserMessage gen input hist state .severity retry =
        ⟨setV state "severity" (.vNum n), .danger_breathing,
          respOf gen input hist (setV state "severity" (.vNum n)) .danger_breathing
            ((getNextQuestion (setV state "severity" (.vNum n)) .danger_breathing).question),
          false, false, 0⟩) ∧
    ((parseNumber input = none ∨ ∃ n : Int, parseNumber input = some n ∧ 10 < n) →
      processUserMessage gen input hist state .severity retry =
        ⟨state, .severity,
          respOf gen input hist state .severity
            ((getNextQuestion state .severity).question),
          false, false, retry + 1⟩) ∧
    (∀ n : Int,
      getV (processUserMessage gen input hist state .severity retry).newState "severity" =
        some (.vNum n) →
      getV state "severity" = some (.vNum n) ∨ (0 ≤ n ∧ n ≤ 10)) := by
  have hguard : ¬(3 ≤ retry ∧ jsIndexOf forcedStages Stage.severity < 17) :=
    fun hcc => absurd hcc.1 (by omega)
  have hstep : processUserMessage gen input hist state .severity retry =
      stageStep gen input hist state .severity retry := by
    unfold processUserMessage
    rw [if_neg (by simp [hE]), if_neg hguard]
  refine ⟨?_, ?_, ?_⟩
  · intro n hpn hrange
    rw [hstep]
    simp only [stageStep, hpn]
    rw [if_pos hrange]
  · intro hfail
    rw [hstep]
    cases hp : parseNumber input with
    | none => simp only [stageStep, hp]
    | some m =>
      rcases hfail with hnone | ⟨n, hn, hgt⟩
      · rw [hp] at hnone; exact absurd hnone (by simp)
      · rw [hp] at hn
        have hmn : m = n := by injection hn
        subst hmn
        simp only [stageStep, hp]
        rw [if_neg (by omega)]
  · intro n hget
    rw [hstep] at hget
    cases hp : parseNumber input with
    | none =>
      simp only [stageStep, hp] at hget
      exact Or.inl hget
    | some m =>
      simp only [stageStep, hp] at hget
      by_cases hrange : 0 ≤ m ∧ m ≤ 10
      · rw [if_pos hrange] at hget
        simp only [] at hget
        rw [getV_setV] at hget
        rw [if_pos rfl] at hget
        have : m = n := by
          have := hget
          injection this with hv
          injection hv
        exact Or.inr (this ▸ hrange)
      · rw [if_neg hrange] at hget
        exact Or.inl hget

/-- C10 witness: the theorem applied at the out-of-range input 11 (state
unchanged, retry incremented) and at the in-range input 7 (severity 7
stored, stage advanced). -/
theorem severity_range_gate_witness :
    parseNumber "11" = some 11 ∧
    processUserMessage gen0 "11" [] [] .severity 0 =
      ⟨[], .severity,
        respOf gen0 "11" [] [] .severity ((getNextQuestion [] .severity).question),
        false, false, 1⟩ ∧
    processUserMessage gen0 "7" [] [] .severity 0 =
      ⟨[("severity", Value.vNum 7)], .danger_breathing,
        respOf gen0 "7" [] [("severity", Value.vNum 7)] .danger_breathing
          ((getNextQuestion [("severity", Value.vNum 7)] .danger_breathing).question),
        false, false, 0⟩ :=
  ⟨by decide,
    (severity_range_gate gen0 "11" [] [] 0 (by decide) (by decide)).2.1
      (Or.inr ⟨11, by decide, by decide⟩),
    (severity_range_gate gen0 "7" [] [] 0 (by decide) (by decide)).1 7
      (by decide) (by decide)⟩

end Triage
